import Mathlib

/-
Verification of the financial-chatbot question pipeline.

Shallow embedding of the repository sources:
  * `app.py`                — `Transaction`, `run_prompt`, `process_question`, chat handler
  * `simple_kg_helper.py`   — `SimpleKGHelper.should_use_kg`, `query_kg`, `format_kg_results`

External boundaries (the OpenAI chat completions client, `json.loads`, `exec`
into the module globals, and the Neo4j session) are modelled as an explicit
environment `Env` of oracle functions; `none` / error results model the raised
exceptions of the corresponding Python calls. Machine floats from the source
are modelled as exact rationals; the claims under check only exercise exact
small sums, where float and rational arithmetic agree.
-/

namespace FinBot

/-- Transaction dataclass from `app.py` (lines 41-50). -/
structure Transaction where
  date : String
  account : String
  category : String
  merchant : String
  transaction_type : String
  currency : String
  amount : ℚ
  amount_uc : ℚ
deriving DecidableEq

/-- Locale dictionary `local_info` built in the setup form of `app.py`
(lines 365-371): keys `user_language`, `user_country`, `currency`,
`start_date`, `latest_date`. -/
structure LocalInfo where
  user_language : String
  user_country : String
  currency : String
  start_date : String
  latest_date : String
deriving DecidableEq

/-- Python values decoded by `json.loads`: null, booleans, numbers, strings,
lists and string-keyed dictionaries (as association lists). -/
inductive Json where
  | null
  | bool (b : Bool)
  | num (q : ℚ)
  | str (s : String)
  | arr (xs : List Json)
  | obj (fields : List (String × Json))

/-- Python truthiness of a decoded JSON value: `None`, `False`, `0`, `""`,
`[]` and the empty dict are falsy, everything else truthy. -/
def Json.truthy : Json → Bool
  | .null => false
  | .bool b => b
  | .num q => q != 0
  | .str s => s != ""
  | .arr xs => !xs.isEmpty
  | .obj fs => !fs.isEmpty

/-- Python `dict.get(key, default)` on a decoded JSON value; on a non-dict
value the default is returned (callers that would instead raise
`AttributeError` at this point are modelled at their call site). -/
def Json.getD (j : Json) (k : String) (d : Json) : Json :=
  match j with
  | .obj fs => (fs.lookup k).getD d
  | _ => d

/-- Python `dict[key]` on a decoded JSON value: `none` models a raised
`KeyError` (or a non-dict receiver). -/
def Json.getKey (j : Json) (k : String) : Option Json :=
  match j with
  | .obj fs => fs.lookup k
  | _ => none

mutual

/-- Deterministic rendition of Python `str` / `json.dumps` on a decoded
value, used only to build prompt text. -/
def Json.render : Json → String
  | .null => "None"
  | .bool true => "True"
  | .bool false => "False"
  | .num q => toString q.num ++ "/" ++ toString q.den
  | .str s => s
  | .arr xs => "[" ++ Json.renderArr xs ++ "]"
  | .obj fs => "\x7b" ++ Json.renderObj fs ++ "\x7d"

/-- Renders the elements of a JSON list. -/
def Json.renderArr : List Json → String
  | [] => ""
  | [x] => Json.render x
  | x :: xs => Json.render x ++ ", " ++ Json.renderArr xs

/-- Renders the fields of a JSON dictionary. -/
def Json.renderObj : List (String × Json) → String
  | [] => ""
  | [(k, v)] => k ++ ": " ++ Json.render v
  | (k, v) :: fs => k ++ ": " ++ Json.render v ++ ", " ++ Json.renderObj fs

end

/-- Opaque stand-in for a plotly figure object. -/
structure Fig where
  tag : Nat
deriving DecidableEq

/-- The module globals that `exec(code, globals())` writes into in
`process_question` (`app.py` lines 280 and 302): the two entry points the
generated sources are expected to define. A stored function models a Python
callable; an `.error` result models the callable raising. -/
structure Globals where
  get_context : Option (List Transaction → Except String Json)
  plot : Option (Json → Except String Fig)

/-- Tags for the external model calls made during one turn, used to state
call-count properties. -/
inductive ModelCall where
  | codegen
  | synthesis
  | route
  | cypherGen
  | kgFormat
deriving DecidableEq

/-- External boundaries of the program, supplied as oracles:
  * `chat p s f`    — the `client.chat.completions.create` call inside
    `run_prompt` of `app.py` (prompt, system message, output format);
    `none` models a raised exception (transport error), `some c` the
    stripped reply content.
  * `parse`         — `json.loads`; `none` models `JSONDecodeError`.
  * `execPy src g`  — `exec(src, globals())`: returns the possibly mutated
    globals and `some err` when the executed source raises.
  * `routeChat`, `cypherChat`, `formatChat` — the three completions calls
    inside `SimpleKGHelper.should_use_kg` / `query_kg` /
    `format_kg_results`; `none` models a raised exception.
  * `runCypher c p` — `session.run(c, p)` plus collecting `record.data()`
    rows; `.error` models a driver/store exception. -/
structure Env where
  chat : String → String → String → Option String
  parse : String → Option Json
  execPy : String → Globals → Globals × Option String
  routeChat : String → Option String
  cypherChat : String → Option String
  formatChat : String → Option String
  runCypher : String → Json → Except String (List Json)

/-- Outcome of one `process_question` call: either an uncaught Python
exception escaping the function, or the returned
`(output, context, fig)` triple. -/
inductive TurnRet where
  | crash (msg : String)
  | ret (output : Option String) (context : Option Json) (fig : Option Fig)

/-- Result of the embedded `process_question`: the returned value, the
module globals after the call, and the model calls made. -/
structure PQOut where
  res : TurnRet
  g : Globals
  calls : List ModelCall

/-- The user filter of `app.py` line 244:
`[t for t in transaction_list if t.account == current_user_id]`. -/
def userFilter (current_user_id : String) (transaction_list : List Transaction) :
    List Transaction :=
  transaction_list.filter (fun t => t.account == current_user_id)

/-- Deterministic rendition of Python `str(set(xs))` (iteration order taken
as first occurrence), used for the category/currency metadata at
`app.py` lines 250-251. -/
def uniqueStr (xs : List String) : String :=
  "\x7b" ++ String.intercalate ", " xs.dedup ++ "\x7d"

/-- The `PROMPT_CONTEXT_PYTHON.format(...)` prompt of `app.py` lines
255-261; the literal template wording is abbreviated, the interpolated
values (question, user id, category/currency metadata and locale fields
used by the template) are kept exactly. -/
def mkCodePrompt (question current_user_id unique_categories unique_currencies : String)
    (li : LocalInfo) : String :=
  "PROMPT_CONTEXT_PYTHON|question=" ++ question ++
  "|current_user_id=" ++ current_user_id ++
  "|unique_categories=" ++ unique_categories ++
  "|unique_currencies=" ++ unique_currencies ++
  "|user_language=" ++ li.user_language ++
  "|currency=" ++ li.currency ++
  "|start_date=" ++ li.start_date ++
  "|latest_date=" ++ li.latest_date

/-- The code-generation prompt as computed inside `process_question`
(`app.py` lines 249-261), as a function of its actual inputs. -/
def codegenPrompt (question current_user_id : String) (transaction_list : List Transaction)
    (li : LocalInfo) : String :=
  mkCodePrompt question current_user_id
    (uniqueStr ((userFilter current_user_id transaction_list).map (·.category)))
    (uniqueStr ((userFilter current_user_id transaction_list).map (·.currency)))
    li

/-- The `PROMPT_OUTPUT.format(...)` prompt of `app.py` lines 290-294;
wording abbreviated, interpolated values kept. -/
def outputPrompt (question : String) (context : Json) (li : LocalInfo) : String :=
  "PROMPT_OUTPUT|context=" ++ context.render ++
  "|question=" ++ question ++
  "|user_country=" ++ li.user_country ++
  "|user_language=" ++ li.user_language ++
  "|currency=" ++ li.currency

/-- System message for the code-generation call (`app.py` line 254). -/
def codegenSystem : String :=
  "You are a helpful assistant that generates Python code for financial data analysis."

/-- System message for the answer-synthesis call (`app.py` line 289). -/
def synthSystem : String := "You are a helpful financial assistant."

/-- Embedding of `run_prompt` (`app.py` lines 211-238): one completions
call; on an exception the error is shown and `None` returned. -/
def run_prompt (env : Env) (prompt system_message output_format : String) : Option String :=
  env.chat prompt system_message output_format

/-- Embedding of `exec(src, globals())` followed by
`get_context(transaction_list)` (`app.py` lines 280-281): run the source,
then look up and call the entry point; an `.error` result models the
raised exception (from `exec`, a `NameError` when no `get_context` is
defined, or the call itself raising). -/
def execContext (env : Env) (src : String) (transaction_list : List Transaction)
    (g : Globals) : Globals × Except String Json :=
  let r := env.execPy src g
  match r.2 with
  | some e => (r.1, .error e)
  | none =>
    match r.1.get_context with
    | none => (r.1, .error "NameError: get_context is not defined")
    | some f => (r.1, f transaction_list)

/-- Embedding of the context-execution block of `process_question`
(`app.py` lines 277-286 inside `try`):
`exec(code_dict['context_code'], globals()); context = get_context(transaction_list)`.
An `.error` result models any exception caught by the `except` arm
(`KeyError` on a missing key, `TypeError` on `exec` of a non-string, and
the failures of `execContext`). The returned globals reflect the mutation
performed by `exec`. -/
def tryContext (env : Env) (code_dict : Json) (transaction_list : List Transaction)
    (g : Globals) : Globals × Except String Json :=
  match code_dict.getKey "context_code" with
  | none => (g, .error "KeyError: context_code")
  | some v =>
    match v with
    | .str src => execContext env src transaction_list g
    | _ => (g, .error "TypeError: exec arg")

/-- Embedding of `exec(src, globals())` followed by `plot(context)`
(`app.py` lines 302-303): run the source, then look up and call the plot
entry point; any raised exception leaves the figure as `None`. -/
def execDiagram (env : Env) (src : String) (context : Json) (g : Globals) :
    Globals × Option Fig :=
  let r := env.execPy src g
  match r.2 with
  | some _ => (r.1, none)
  | none =>
    match r.1.plot with
    | none => (r.1, none)
    | some pf =>
      match pf context with
      | .error _ => (r.1, none)
      | .ok fig => (r.1, some fig)

/-- Embedding of the diagram block of `process_question` (`app.py` lines
298-307): executes `diagram_code` and calls `plot(context)`, with any
exception caught and the figure left as `None`. Returns the resulting
globals and optional figure. -/
def tryDiagram (env : Env) (code_dict : Json) (context : Json) (g : Globals) :
    Globals × Option Fig :=
  if (code_dict.getD "needs_diagram" (.bool false)).truthy &&
     (code_dict.getD "diagram_code" .null).truthy then
    match code_dict.getKey "diagram_code" with
    | none => (g, none)
    | some v =>
      match v with
      | .str src => execDiagram env src context g
      | _ => (g, none)
  else (g, none)

/-- Embedding of `process_question` (`app.py` lines 240-309). Parameters
follow the source signature, preceded by the oracle environment and the
module globals the `exec` calls mutate. -/
def process_question (env : Env) (question : String) (transaction_list : List Transaction)
    (local_info : LocalInfo) (current_user_id : String) (g : Globals) : PQOut :=
  let user_transactions := userFilter current_user_id transaction_list
  if user_transactions.isEmpty then
    ⟨.ret (some ("No transactions found for user ID: " ++ current_user_id)) none none, g, []⟩
  else
    match run_prompt env (codegenPrompt question current_user_id transaction_list local_info)
        codegenSystem "json" with
    | none => ⟨.ret none none none, g, [.codegen]⟩
    | some code_response =>
      if code_response = "" then ⟨.ret none none none, g, [.codegen]⟩
      else
        match env.parse code_response with
        | none => ⟨.ret none none none, g, [.codegen]⟩
        | some code_dict =>
          match code_dict with
          | .obj fields =>
            let cd := Json.obj fields
            if !(cd.getD "is_relevant" (.bool false)).truthy then
              ⟨.ret (some "Sorry, I can only answer questions about your financial transactions.")
                none none, g, [.codegen]⟩
            else
              let rc := tryContext env cd transaction_list g
              match rc.2 with
              | .error _ => ⟨.ret none none none, rc.1, [.codegen]⟩
              | .ok context =>
                let output := run_prompt env (outputPrompt question context local_info)
                  synthSystem "text"
                let rd := tryDiagram env cd context rc.1
                ⟨.ret output (some context) rd.2, rd.1, [.codegen, .synthesis]⟩
          | _ =>
            ⟨.crash "AttributeError: get on non-dict", g, [.codegen]⟩

/-- The routing prompt of `SimpleKGHelper.should_use_kg`
(`simple_kg_helper.py` lines 19-36); wording abbreviated, the interpolated
question kept. -/
def decisionPrompt (question : String) : String :=
  "DECISION_PROMPT|question=" ++ question

/-- Embedding of `SimpleKGHelper.should_use_kg` (`simple_kg_helper.py`
lines 16-65): one routing model call; any exception in the `try` body
(transport error, `json.loads` failure, `.get` on a non-dict reply) is
caught and `False` returned; a parsed dict without the `use_kg` key yields
the default `False`. The returned flag is the Python truthiness of the
`use_kg` value, as consumed by the caller. -/
def should_use_kg (env : Env) (question : String) : Bool × List ModelCall :=
  match env.routeChat (decisionPrompt question) with
  | none => (false, [.route])
  | some content =>
    match env.parse content with
    | none => (false, [.route])
    | some j => ((j.getD "use_kg" (.bool false)).truthy, [.route])

/-- The Cypher-generation prompt of `SimpleKGHelper.query_kg`
(`simple_kg_helper.py` lines 70-217); wording abbreviated, interpolated
values kept. -/
def cypherPrompt (question user_id currency : String) : String :=
  "CYPHER_PROMPT|question=" ++ question ++
  "|user_id=" ++ user_id ++
  "|currency=" ++ currency

/-- Embedding of `SimpleKGHelper.query_kg` (`simple_kg_helper.py` lines
67-260): generates a Cypher query via one model call, parses the JSON
reply, and runs the query; every failure (transport error, unparseable
reply, missing or falsy `cypher` value, non-string `cypher`, store-side
exception) is caught and `None` returned, never raised. On success the
returned dict carries `source`, `cypher`, `results`, `parameters`. -/
def query_kg (env : Env) (question user_id currency : String) :
    Option Json × List ModelCall :=
  match env.cypherChat (cypherPrompt question user_id currency) with
  | none => (none, [.cypherGen])
  | some content =>
    match env.parse content with
    | none => (none, [.cypherGen])
    | some j =>
      let cypher := j.getD "cypher" .null
      let parameters := j.getD "parameters" (.obj [("user_id", .str user_id)])
      if !cypher.truthy then (none, [.cypherGen])
      else
        match cypher with
        | .str c =>
          match env.runCypher c parameters with
          | .error _ => (none, [.cypherGen])
          | .ok rows =>
            (some (.obj [("source", .str "kg"), ("cypher", .str c),
              ("results", .arr rows), ("parameters", parameters)]), [.cypherGen])
        | _ => (none, [.cypherGen])

/-- The fixed localized no-data message of `format_kg_results`
(`simple_kg_helper.py` line 266). -/
def noDataMsg (language : String) : String :=
  if language == "RUS" then "Данные не найдены." else "No data found."

/-- The formatting prompt of `SimpleKGHelper.format_kg_results`
(`simple_kg_helper.py` lines 268-282); wording abbreviated, interpolated
values kept. -/
def formatPrompt (question : String) (results : Json) (language currency : String) : String :=
  "FORMAT_PROMPT|question=" ++ question ++
  "|results=" ++ results.render ++
  "|language=" ++ language ++
  "|currency=" ++ currency

/-- Embedding of `SimpleKGHelper.format_kg_results` (`simple_kg_helper.py`
lines 262-296): when `kg_data` is falsy or its `results` value is falsy
(absent, null, or an empty row list), the fixed localized no-data string is
returned with no model call; otherwise one formatting model call is made,
whose failure falls back to `str` of the rows. -/
def format_kg_results (env : Env) (kg_data : Option Json)
    (question language currency : String) : String × List ModelCall :=
  match kg_data with
  | none => (noDataMsg language, [])
  | some kd =>
    let results := kd.getD "results" .null
    if !results.truthy then (noDataMsg language, [])
    else
      match env.formatChat (formatPrompt question results language currency) with
      | none => (results.render, [.kgFormat])
      | some content => (content, [.kgFormat])

/-- Modelled from the spec: the orchestrating caller that wires
`SimpleKGHelper` into the chat turn is present in the repository only as
documented integration code (the docstring of `generate_sample_data.py`,
lines 151-192), not as executable source. Following the spec (§4.6 and
§4.5) and that snippet: route the question; on the graph path run
`query_kg` and format its rows (context is the graph data, no chart); when
`query_kg` returns `None`, fall back to the in-memory `process_question`;
on the in-memory route call `process_question` directly. -/
def kg_turn (env : Env) (question : String) (transaction_list : List Transaction)
    (local_info : LocalInfo) (current_user_id : String) (g : Globals) : PQOut :=
  let route := should_use_kg env question
  if route.1 then
    let kq := query_kg env question current_user_id local_info.currency
    match kq.1 with
    | some kg_data =>
      let fmt := format_kg_results env (some kg_data) question
        local_info.user_language local_info.currency
      ⟨.ret (some fmt.1) (some kg_data) none, g, route.2 ++ kq.2 ++ fmt.2⟩
    | none =>
      let pq := process_question env question transaction_list local_info current_user_id g
      ⟨pq.res, pq.g, route.2 ++ kq.2 ++ pq.calls⟩
  else
    let pq := process_question env question transaction_list local_info current_user_id g
    ⟨pq.res, pq.g, route.2 ++ pq.calls⟩

/-- What the chat handler surfaces to the user for one turn. -/
inductive Surfaced where
  | shown (answer : String) (context : Option Json) (fig : Option Fig)
  | errorMsg (s : String)
  | crashed (s : String)

/-- Embedding of the chat input handler of `app.py` (lines 409-445): run
`process_question`; when the response is truthy show it together with the
context (only if truthy) and the figure; otherwise show only the generic
failure message, discarding any context or figure the pipeline computed. -/
def chat_turn (env : Env) (question : String) (transaction_list : List Transaction)
    (local_info : LocalInfo) (current_user_id : String) (g : Globals) : Surfaced :=
  match (process_question env question transaction_list local_info current_user_id g).res with
  | .crash e => .crashed e
  | .ret o c f =>
    match o with
    | none => .errorMsg "Failed to generate response. Please try again."
    | some resp =>
      if resp = "" then .errorMsg "Failed to generate response. Please try again."
      else
        .shown resp
          (match c with
           | some ctx => if ctx.truthy then some ctx else none
           | none => none)
          f

/-- Output component of a turn return; a crash has no output. -/
def TurnRet.outputOf : TurnRet → Option String
  | .crash _ => none
  | .ret o _ _ => o

/-- Context component of a turn return; a crash has no context. -/
def TurnRet.ctxOf : TurnRet → Option Json
  | .crash _ => none
  | .ret _ c _ => c

/-- Figure component of a turn return; a crash has no figure. -/
def TurnRet.figOf : TurnRet → Option Fig
  | .crash _ => none
  | .ret _ _ f => f

/-- Numeric payload of a JSON value, if any. -/
def Json.numVal : Json → Option ℚ
  | .num q => some q
  | _ => none

/-! Concrete fixtures used by witnesses and counterexamples. -/

/-- Outcome transaction of user A worth 10 (spec scenario, §8). -/
def txA1 : Transaction := ⟨"2023-01-01", "A", "Food", "AMAZON", "outcome", "USD", 10, 10⟩

/-- Outcome transaction of user A worth 20 (spec scenario, §8). -/
def txA2 : Transaction := ⟨"2023-01-02", "A", "Food", "AMAZON", "outcome", "USD", 20, 20⟩

/-- Outcome transaction of user B worth 5 (spec scenario, §8). -/
def txB : Transaction := ⟨"2023-01-03", "B", "Food", "AMAZON", "outcome", "USD", 5, 5⟩

/-- Variant of user B transaction worth 7, for varying another user. -/
def txB7 : Transaction := ⟨"2023-01-03", "B", "Food", "AMAZON", "outcome", "USD", 7, 7⟩

/-- English/US locale fixture. -/
def liEN : LocalInfo := ⟨"ENG", "USA", "USD", "2023-01-01", "2023-01-31"⟩

/-- Empty module globals: no generated entry point defined yet. -/
def g0 : Globals := ⟨none, none⟩

/-- Environment in which every external call fails. -/
def envDown : Env where
  chat := fun _ _ _ => none
  parse := fun _ => none
  execPy := fun _ g => (g, none)
  routeChat := fun _ => none
  cypherChat := fun _ => none
  formatChat := fun _ => none
  runCypher := fun _ _ => .error "store down"

/-- Total of `amount_uc` over the outcome transactions of a list, the
aggregation of the spec scenario (§8). -/
def sumOutcome (ts : List Transaction) : ℚ :=
  ((ts.filter (fun t => t.transaction_type == "outcome")).map (·.amount_uc)).sum

end FinBot

namespace FinBot

/-! Theorems: C4 and C3, the terminal short-circuits of `process_question`. -/

/-- Helper: a list whose elements all avoid the user id filters to nil. -/
theorem userFilter_eq_nil {uid : String} {ts : List Transaction}
    (h : ∀ t ∈ ts, t.account ≠ uid) : userFilter uid ts = [] := by
  simp only [userFilter, List.filter_eq_nil_iff]
  intro t ht
  simpa using h t ht

/-- C4: when no transaction belongs to the requesting user,
`process_question` returns the fixed "no transactions found" message with
null context and null chart, leaves the globals untouched, and makes no
model call. -/
theorem c4_no_transactions_terminal (env : Env) (question : String)
    (ts : List Transaction) (li : LocalInfo) (uid : String) (g : Globals)
    (h : ∀ t ∈ ts, t.account ≠ uid) :
    process_question env question ts li uid g =
      ⟨.ret (some ("No transactions found for user ID: " ++ uid)) none none, g, []⟩ := by
  unfold process_question
  rw [userFilter_eq_nil h]
  rfl

/-- Witness for C4 at the concrete input: user A requests against a list
holding only a transaction of user B. -/
theorem c4_no_transactions_terminal_witness :
    process_question envDown "how much did I spend" [txB] liEN "A" g0 =
      ⟨.ret (some ("No transactions found for user ID: " ++ "A")) none none, g0, []⟩ :=
  c4_no_transactions_terminal envDown "how much did I spend" [txB] liEN "A" g0
    (by decide)

/-- C3: when the code-generation reply parses to a dict whose
`is_relevant` value is `false`, `process_question` returns the fixed
irrelevance message with null context and null chart, leaves the globals
untouched (no generated code ran), and the only model call spent is the
code-generation one. -/
theorem c3_irrelevant_short_circuit (env : Env) (question : String)
    (ts : List Transaction) (li : LocalInfo) (uid : String) (g : Globals)
    (r : String) (fields : List (String × Json))
    (hu : userFilter uid ts ≠ [])
    (hchat : env.chat (codegenPrompt question uid ts li) codegenSystem "json" = some r)
    (hr : r ≠ "")
    (hparse : env.parse r = some (.obj fields))
    (hrel : fields.lookup "is_relevant" = some (.bool false)) :
    process_question env question ts li uid g =
      ⟨.ret (some "Sorry, I can only answer questions about your financial transactions.")
        none none, g, [.codegen]⟩ := by
  unfold process_question run_prompt
  rw [hchat]
  simp only [List.isEmpty_eq_true, hu, if_false, if_neg hr, hparse]
  simp [Json.getD, Json.getKey, hrel, Json.truthy]

/-- Environment whose code-generation reply is the irrelevance dict, for
the C3 witness. -/
def envIrrelevant : Env :=
  { envDown with
    chat := fun _ _ fmt => if fmt = "json" then some "GENCODE" else none
    parse := fun s =>
      if s = "GENCODE" then
        some (.obj [("is_relevant", .bool false), ("needs_diagram", .bool false),
          ("context_code", .str ""), ("algorithm_explanation", .str ""),
          ("diagram_code", .str "")])
      else none }

/-- Witness for C3 at a concrete input: user A with one transaction and a
reply classifying the question as irrelevant. -/
theorem c3_irrelevant_short_circuit_witness :
    process_question envIrrelevant "what is the weather" [txA1] liEN "A" g0 =
      ⟨.ret (some "Sorry, I can only answer questions about your financial transactions.")
        none none, g0, [.codegen]⟩ :=
  c3_irrelevant_short_circuit envIrrelevant "what is the weather" [txA1] liEN "A" g0
    "GENCODE"
    [("is_relevant", .bool false), ("needs_diagram", .bool false),
      ("context_code", .str ""), ("algorithm_explanation", .str ""),
      ("diagram_code", .str "")]
    (by decide) (by rfl) (by decide) (by rfl) (by rfl)

/-! Theorems: C2, isolation of generated-code failures. -/

/-- Unfolding lemma: truthiness of a JSON string. -/
theorem truthy_str (s : String) : (Json.str s).truthy = (s != "") := rfl

/-- Unfolding lemma: truthiness of a JSON boolean. -/
theorem truthy_bool (b : Bool) : (Json.bool b).truthy = b := rfl

/-- Unfolding lemma: truthiness of a JSON list. -/
theorem truthy_arr (xs : List Json) : (Json.arr xs).truthy = !xs.isEmpty := rfl

/-- Unfolding lemma: truthiness of JSON null. -/
theorem truthy_null : Json.null.truthy = false := rfl

/-- Unfolding lemma: `dict.get` with default on a JSON dict. -/
theorem getD_obj (fs : List (String × Json)) (k : String) (d : Json) :
    (Json.obj fs).getD k d = (fs.lookup k).getD d := rfl

/-- Unfolding lemma: `dict[key]` on a JSON dict. -/
theorem getKey_obj (fs : List (String × Json)) (k : String) :
    (Json.obj fs).getKey k = fs.lookup k := rfl

/-- C2: failures of the generated routines are caught at the turn
boundary. First conjunct: when the context block fails (missing or
non-string `context_code`, `exec` raising, no `get_context` defined, or
the routine itself raising — all the cases `tryContext` ends in an error),
`process_question` returns the null triple for this turn, makes no
answer-synthesis call, and does not crash. Second conjunct: when the
context routine succeeds, the answer-synthesis call returns text, and the
diagram routine raises when executed, the turn still returns the text
answer and the computed context with a null chart. -/
theorem c2_generated_code_error_isolation (env : Env) (question : String)
    (ts : List Transaction) (li : LocalInfo) (uid : String) (g : Globals)
    (r : String) (fields : List (String × Json))
    (hu : userFilter uid ts ≠ [])
    (hchat : env.chat (codegenPrompt question uid ts li) codegenSystem "json" = some r)
    (hr : r ≠ "")
    (hparse : env.parse r = some (.obj fields))
    (hrel : ((Json.obj fields).getD "is_relevant" (.bool false)).truthy = true) :
    (∀ g' e, tryContext env (.obj fields) ts g = (g', .error e) →
      process_question env question ts li uid g =
        ⟨.ret none none none, g', [.codegen]⟩) ∧
    (∀ g' context ans dsrc g'' pf e,
      tryContext env (.obj fields) ts g = (g', .ok context) →
      env.chat (outputPrompt question context li) synthSystem "text" = some ans →
      ((Json.obj fields).getD "needs_diagram" (.bool false)).truthy = true →
      fields.lookup "diagram_code" = some (.str dsrc) →
      dsrc ≠ "" →
      env.execPy dsrc g' = (g'', none) →
      g''.plot = some pf →
      pf context = .error e →
      process_question env question ts li uid g =
        ⟨.ret (some ans) (some context) none, g'', [.codegen, .synthesis]⟩) := by
  constructor
  · intro g' e htc
    unfold process_question run_prompt
    rw [hchat]
    simp only [List.isEmpty_eq_true, hu, if_false, if_neg hr, hparse, hrel]
    simp [htc]
  · intro g' context ans dsrc g'' pf e htc hans hnd hdc hds hexec hplot hthrow
    have hnd' : ((fields.lookup "needs_diagram").getD (Json.bool false)).truthy = true := by
      simpa [getD_obj] using hnd
    unfold process_question run_prompt
    rw [hchat]
    simp only [List.isEmpty_eq_true, hu, if_false, if_neg hr, hparse, hrel]
    simp only [htc, hans]
    unfold tryDiagram
    simp [getD_obj, getKey_obj, hdc, hnd', truthy_str, bne_iff_ne, hds,
      execDiagram, hexec, hplot, hthrow]

/-- Fields of a generated reply that is relevant and whose context source
raises at run time. -/
def cdRelFields : List (String × Json) :=
  [("is_relevant", .bool true), ("context_code", .str "boom")]

/-- Environment whose generated context routine raises when executed. -/
def envCtxThrow : Env :=
  { envDown with
    chat := fun _ _ fmt => if fmt = "json" then some "GENCODE" else some "the answer"
    parse := fun s => if s = "GENCODE" then some (.obj cdRelFields) else none
    execPy := fun src g =>
      if src = "boom" then (g, some "ZeroDivisionError") else (g, none) }

/-- Fields of a generated reply that needs a diagram. -/
def cdDiagFields : List (String × Json) :=
  [("is_relevant", .bool true), ("context_code", .str "csrc"),
    ("needs_diagram", .bool true), ("diagram_code", .str "dsrc")]

/-- Context routine installed by the witness environments: returns the
dict with total 30. -/
def fCtx30 : List Transaction → Except String Json :=
  fun _ => .ok (.obj [("total", .num 30)])

/-- Plot routine that raises when called. -/
def fPlotBoom : Json → Except String Fig := fun _ => .error "plot failure"

/-- Environment whose generated plot routine raises when executed. -/
def envPlotThrow : Env :=
  { envDown with
    chat := fun _ _ fmt => if fmt = "json" then some "GENCODE" else some "the answer"
    parse := fun s => if s = "GENCODE" then some (.obj cdDiagFields) else none
    execPy := fun src g =>
      if src = "csrc" then ({ g with get_context := some fCtx30 }, none)
      else if src = "dsrc" then ({ g with plot := some fPlotBoom }, none)
      else (g, none) }

/-- Witness for C2 at concrete inputs: a raising context routine yields
the null triple without a synthesis call, and a raising plot routine still
yields the text answer with a null chart. -/
theorem c2_generated_code_error_isolation_witness :
    process_question envCtxThrow "how much did I spend" [txA1] liEN "A" g0 =
      ⟨.ret none none none, g0, [.codegen]⟩ ∧
    process_question envPlotThrow "how much did I spend" [txA1] liEN "A" g0 =
      ⟨.ret (some "the answer") (some (.obj [("total", .num 30)])) none,
        ⟨some fCtx30, some fPlotBoom⟩, [.codegen, .synthesis]⟩ := by
  constructor
  · exact (c2_generated_code_error_isolation envCtxThrow "how much did I spend" [txA1]
      liEN "A" g0 "GENCODE" cdRelFields (by decide) rfl (by decide) rfl rfl).1
      g0 "ZeroDivisionError" rfl
  · exact (c2_generated_code_error_isolation envPlotThrow "how much did I spend" [txA1]
      liEN "A" g0 "GENCODE" cdDiagFields (by decide) rfl (by decide) rfl rfl).2
      ⟨some fCtx30, none⟩ (.obj [("total", .num 30)]) "the answer" "dsrc"
      ⟨some fCtx30, some fPlotBoom⟩ fPlotBoom "plot failure"
      rfl rfl rfl rfl (by decide) rfl rfl rfl

/-! Theorems: C1, user scoping of the in-memory context computation. -/

/-- Context routine that ignores user scoping: sums outcome `amount_uc`
over the whole list it receives. -/
def fSumAll : List Transaction → Except String Json :=
  fun ts => .ok (.num (sumOutcome ts))

/-- Environment whose generated context routine does not filter by user. -/
def envUnscoped : Env :=
  { envDown with
    chat := fun _ _ fmt => if fmt = "json" then some "GENCODE" else some "the answer"
    parse := fun s => if s = "GENCODE" then some (.obj cdRelFields) else none
    execPy := fun _ g => ({ g with get_context := some fSumAll }, none) }

/-- Counterexample to C1 as stated: `process_question` hands the full,
unfiltered transaction list to the generated routine (`app.py` line 281),
so with a routine that does not filter by account the context for user A
on the spec scenario sums to 35, not 30, and removing user B's transaction
changes the result — the context does not depend only on user A's
transactions. -/
theorem c1_full_list_counterexample :
    ((process_question envUnscoped "how much did I spend" [txA1, txA2, txB] liEN "A"
        g0).res.ctxOf.bind Json.numVal = some 35) ∧
    ((process_question envUnscoped "how much did I spend" [txA1, txA2] liEN "A"
        g0).res.ctxOf.bind Json.numVal = some 30) := by
  have b1 : (process_question envUnscoped "how much did I spend" [txA1, txA2, txB] liEN "A"
      g0).res.ctxOf.bind Json.numVal = some (sumOutcome [txA1, txA2, txB]) := rfl
  have b2 : (process_question envUnscoped "how much did I spend" [txA1, txA2] liEN "A"
      g0).res.ctxOf.bind Json.numVal = some (sumOutcome [txA1, txA2]) := rfl
  constructor
  · rw [b1]
    norm_num [sumOutcome, txA1, txA2, txB]
  · rw [b2]
    norm_num [sumOutcome, txA1, txA2]

/-- Scoping property of the exec oracle: every context routine it makes
available restricts itself to the current user's transactions — the
filtering that the code-generation prompt mandates as its first step. -/
def ExecScoped (env : Env) (uid : String) : Prop :=
  ∀ src h f, (env.execPy src h).1.get_context = some f →
    ∀ ts, f ts = f (userFilter uid ts)

/-- Helper: filtering by the same user twice equals filtering once. -/
theorem userFilter_idem (uid : String) (ts : List Transaction) :
    userFilter uid (userFilter uid ts) = userFilter uid ts := by
  simp [userFilter, List.filter_filter]

/-- Helper: the context-execution step gives the same result on two lists
on which every installable routine agrees. -/
theorem execContext_congr (env : Env) (src : String) (g : Globals)
    (ts1 ts2 : List Transaction)
    (h : ∀ f, (env.execPy src g).1.get_context = some f → f ts1 = f ts2) :
    execContext env src ts1 g = execContext env src ts2 g := by
  simp only [execContext]
  cases he : (env.execPy src g).2 with
  | some e => rfl
  | none =>
    cases hg : (env.execPy src g).1.get_context with
    | none => rfl
    | some f => simp [h f hg]

/-- Helper: under a scoped exec oracle, the context block gives the same
result on two lists with the same user subsequence. -/
theorem tryContext_scoped (env : Env) (uid : String) (cd : Json) (g : Globals)
    (ts1 ts2 : List Transaction)
    (Hts : userFilter uid ts1 = userFilter uid ts2)
    (Hexec : ExecScoped env uid) :
    tryContext env cd ts1 g = tryContext env cd ts2 g := by
  simp only [tryContext]
  rcases hk : cd.getKey "context_code" with _ | v
  · rfl
  · rcases v with _ | b | q | src | xs | fs
    · rfl
    · rfl
    · rfl
    · show execContext env src ts1 g = execContext env src ts2 g
      refine execContext_congr env src g ts1 ts2 ?_
      intro f hf
      rw [Hexec src g f hf ts1, Hexec src g f hf ts2, Hts]
    · rfl
    · rfl

/-- Helper: the code-generation prompt depends on the transaction list
only through the user's own transactions. -/
theorem codegenPrompt_scoped (q uid : String) (ts1 ts2 : List Transaction)
    (li : LocalInfo) (Hts : userFilter uid ts1 = userFilter uid ts2) :
    codegenPrompt q uid ts1 li = codegenPrompt q uid ts2 li := by
  unfold codegenPrompt
  rw [Hts]

/-- C1 (amended): `process_question` passes the full transaction list to
the generated routine, so the context depends only on the requesting
user's transactions exactly when the routine itself filters by account (as
the prompt mandates). Under that scoping condition the whole result of
`process_question` is invariant under any change to other users'
transactions: two lists with the same user subsequence give identical
results. -/
theorem c1_context_user_scoping (env : Env) (question : String) (li : LocalInfo)
    (uid : String) (g : Globals) (ts1 ts2 : List Transaction)
    (Hts : userFilter uid ts1 = userFilter uid ts2)
    (Hexec : ExecScoped env uid) :
    process_question env question ts1 li uid g =
      process_question env question ts2 li uid g := by
  have hTC : ∀ cd, tryContext env cd ts1 g = tryContext env cd ts2 g :=
    fun cd => tryContext_scoped env uid cd g ts1 ts2 Hts Hexec
  have hP := codegenPrompt_scoped question uid ts1 ts2 li Hts
  simp only [process_question, hP, hTC, Hts]

/-- Context routine that does filter to user A before summing, the shape
the prompt mandates. -/
def fSumScoped : List Transaction → Except String Json :=
  fun ts => .ok (.num (sumOutcome (userFilter "A" ts)))

/-- Environment whose generated context routine filters to user A. -/
def envScoped : Env :=
  { envDown with
    chat := fun _ _ fmt => if fmt = "json" then some "GENCODE" else some "the answer"
    parse := fun s => if s = "GENCODE" then some (.obj cdRelFields) else none
    execPy := fun _ g => ({ g with get_context := some fSumScoped }, none) }

/-- Witness for C1 (amended) at the spec scenario: with a routine that
filters to user A, the two lists differing only in user B's transaction
give identical results, and the computed context sums to 30. -/
theorem c1_context_user_scoping_witness :
    userFilter "A" [txA1, txA2, txB] = userFilter "A" [txA1, txA2, txB7] ∧
    process_question envScoped "how much did I spend" [txA1, txA2, txB] liEN "A" g0 =
      process_question envScoped "how much did I spend" [txA1, txA2, txB7] liEN "A" g0 ∧
    (process_question envScoped "how much did I spend" [txA1, txA2, txB] liEN "A"
      g0).res.ctxOf.bind Json.numVal = some 30 :=
  ⟨by decide,
   c1_context_user_scoping envScoped "how much did I spend" liEN "A" g0
     [txA1, txA2, txB] [txA1, txA2, txB7] (by decide)
     (by
       intro src h f hf ts
       have hf' : some fSumScoped = some f := hf
       cases hf'
       simp [fSumScoped, userFilter_idem]),
   by
     have b : (process_question envScoped "how much did I spend" [txA1, txA2, txB] liEN "A"
         g0).res.ctxOf.bind Json.numVal =
         some (sumOutcome (userFilter "A" [txA1, txA2, txB])) := rfl
     rw [b]
     norm_num [sumOutcome, userFilter, txA1, txA2, txB, List.filter]⟩

/-! Theorems: C5, outcome of a null from a pipeline stage. -/

/-- Plot routine that returns a figure. -/
def fPlotOk : Json → Except String Fig := fun _ => .ok ⟨1⟩

/-- Environment whose answer-synthesis call fails (returns `None`) while
code generation and both generated routines succeed. -/
def envSynthNull : Env :=
  { envDown with
    chat := fun _ _ fmt => if fmt = "json" then some "GENCODE" else none
    parse := fun s => if s = "GENCODE" then some (.obj cdDiagFields) else none
    execPy := fun src g =>
      if src = "csrc" then ({ g with get_context := some fCtx30 }, none)
      else if src = "dsrc" then ({ g with plot := some fPlotOk }, none)
      else (g, none) }

/-- Counterexample to C5 as stated: when the answer-synthesis stage
returns null, `process_question` does not stop — the diagram block still
executes generated code and the function returns a computed context and a
chart alongside the null answer, so a later stage runs after a null and
partial output exists at the pipeline boundary (it is the chat handler
that discards it). -/
theorem c5_diagram_after_null_counterexample :
    (process_question envSynthNull "compare my spending" [txA1] liEN "A" g0).res.outputOf =
      none ∧
    (process_question envSynthNull "compare my spending" [txA1] liEN "A" g0).res.figOf =
      some ⟨1⟩ ∧
    (process_question envSynthNull "compare my spending" [txA1] liEN "A" g0).res.ctxOf =
      some (.obj [("total", .num 30)]) ∧
    (process_question envSynthNull "compare my spending" [txA1] liEN "A" g0).calls =
      [.codegen, .synthesis] :=
  ⟨rfl, rfl, rfl, rfl⟩

/-- C5 (amended): a null from code generation ends the turn immediately
with the null triple and no further stage or model call; a null
(exception) from context execution does the same; and whenever the
pipeline's answer is null — including a null from answer synthesis, after
which the diagram block still runs — the chat handler surfaces only the
generic failure message, discarding any context or chart the pipeline
computed, so no partial output reaches the user. -/
theorem c5_null_stage_outcome (env : Env) (question : String)
    (ts : List Transaction) (li : LocalInfo) (uid : String) (g : Globals)
    (hu : userFilter uid ts ≠ []) :
    (env.chat (codegenPrompt question uid ts li) codegenSystem "json" = none →
      process_question env question ts li uid g = ⟨.ret none none none, g, [.codegen]⟩) ∧
    (∀ r fields g' e,
      env.chat (codegenPrompt question uid ts li) codegenSystem "json" = some r →
      r ≠ "" →
      env.parse r = some (.obj fields) →
      ((Json.obj fields).getD "is_relevant" (.bool false)).truthy = true →
      tryContext env (.obj fields) ts g = (g', .error e) →
      process_question env question ts li uid g = ⟨.ret none none none, g', [.codegen]⟩) ∧
    (∀ c f, (process_question env question ts li uid g).res = .ret none c f →
      chat_turn env question ts li uid g =
        .errorMsg "Failed to generate response. Please try again.") := by
  refine ⟨?_, ?_, ?_⟩
  · intro hchat
    unfold process_question run_prompt
    rw [hchat]
    simp [List.isEmpty_eq_true, hu]
  · intro r fields g' e hchat hr hparse hrel htc
    unfold process_question run_prompt
    rw [hchat]
    simp only [List.isEmpty_eq_true, hu, if_false, if_neg hr, hparse, hrel]
    simp [htc]
  · intro c f h
    unfold chat_turn
    rw [h]

/-- Witness for C5 (amended) at concrete inputs: a transport failure of
code generation yields the null triple with one call, and a null from
answer synthesis surfaces as the generic failure message. -/
theorem c5_null_stage_outcome_witness :
    process_question envDown "compare my spending" [txA1] liEN "A" g0 =
      ⟨.ret none none none, g0, [.codegen]⟩ ∧
    chat_turn envSynthNull "compare my spending" [txA1] liEN "A" g0 =
      .errorMsg "Failed to generate response. Please try again." :=
  ⟨(c5_null_stage_outcome envDown "compare my spending" [txA1] liEN "A" g0 (by decide)).1
      rfl,
   (c5_null_stage_outcome envSynthNull "compare my spending" [txA1] liEN "A" g0
      (by decide)).2.2 (some (.obj [("total", .num 30)])) (some ⟨1⟩) rfl⟩

/-! Theorems: C6, what makes the code-generation stage fail. -/

/-- Environment whose code-generation reply is valid JSON but an empty
object, lacking all five expected fields. -/
def envEmptyObj : Env :=
  { envDown with
    chat := fun _ _ fmt => if fmt = "json" then some "EMPTYOBJ" else none
    parse := fun s => if s = "EMPTYOBJ" then some (.obj []) else none }

/-- Counterexample to C6 as stated: a reply body that is valid JSON but
does not have the expected shape (none of the five GeneratedRoutine
fields) does not fail the stage — the missing `is_relevant` defaults to
false and the turn returns the fixed irrelevance message, not null. -/
theorem c6_missing_fields_counterexample :
    (process_question envEmptyObj "how much did I spend" [txA1] liEN "A" g0).res.outputOf =
      some "Sorry, I can only answer questions about your financial transactions." ∧
    (process_question envEmptyObj "how much did I spend" [txA1] liEN "A" g0).calls =
      [.codegen] :=
  ⟨rfl, rfl⟩

/-- C6 (amended): the code-generation stage fails — the turn immediately
returns the null triple after exactly the one code-generation call — on a
transport error, an empty reply body, or a body `json.loads` cannot parse;
a body that parses to a JSON object is never a code-generation failure
even with all five fields missing (a missing `is_relevant` yields the
fixed irrelevance message instead). The stage is never retried: every path
through `process_question` makes at most one code-generation call. -/
theorem c6_codegen_failure_characterisation (env : Env) (question : String)
    (ts : List Transaction) (li : LocalInfo) (uid : String) (g : Globals)
    (hu : userFilter uid ts ≠ []) :
    (env.chat (codegenPrompt question uid ts li) codegenSystem "json" = none →
      process_question env question ts li uid g = ⟨.ret none none none, g, [.codegen]⟩) ∧
    (∀ r, env.chat (codegenPrompt question uid ts li) codegenSystem "json" = some r →
      (r = "" ∨ env.parse r = none) →
      process_question env question ts li uid g = ⟨.ret none none none, g, [.codegen]⟩) ∧
    (∀ r fields,
      env.chat (codegenPrompt question uid ts li) codegenSystem "json" = some r →
      r ≠ "" →
      env.parse r = some (.obj fields) →
      fields.lookup "is_relevant" = none →
      process_question env question ts li uid g =
        ⟨.ret (some "Sorry, I can only answer questions about your financial transactions.")
          none none, g, [.codegen]⟩) ∧
    ((process_question env question ts li uid g).calls.count .codegen ≤ 1) := by
  refine ⟨?_, ?_, ?_, ?_⟩
  · intro hchat
    unfold process_question run_prompt
    rw [hchat]
    simp [List.isEmpty_eq_true, hu]
  · intro r hchat hfail
    unfold process_question run_prompt
    rw [hchat]
    rcases hfail with hr | hp
    · simp [List.isEmpty_eq_true, hu, hr]
    · rcases eq_or_ne r "" with hr | hr
      · simp [List.isEmpty_eq_true, hu, hr]
      · simp [List.isEmpty_eq_true, hu, if_neg hr, hp]
  · intro r fields hchat hr hparse hrel
    unfold process_question run_prompt
    rw [hchat]
    simp only [List.isEmpty_eq_true, hu, if_false, if_neg hr, hparse]
    simp [getD_obj, hrel, truthy_bool]
  · unfold process_question run_prompt
    cases hE : (userFilter uid ts).isEmpty with
    | true => simp [hE]
    | false =>
      cases hc : env.chat (codegenPrompt question uid ts li) codegenSystem "json" with
      | none => simp [hE, hc]
      | some r =>
        rcases eq_or_ne r "" with hr | hr
        · simp [hE, hc, hr]
        · cases hp : env.parse r with
          | none => simp [hE, hc, if_neg hr, hp]
          | some j =>
            cases j with
            | obj fields =>
              cases hrel : ((Json.obj fields).getD "is_relevant" (.bool false)).truthy with
              | false => simp [hE, hc, if_neg hr, hp, hrel]
              | true =>
                cases htc : (tryContext env (Json.obj fields) ts g).2 with
                | error e =>
                  simp [hE, hc, if_neg hr, hp, hrel, htc]
                | ok context =>
                  simp [hE, hc, if_neg hr, hp, hrel, htc]
            | null => simp [hE, hc, if_neg hr, hp]
            | bool b => simp [hE, hc, if_neg hr, hp]
            | num q => simp [hE, hc, if_neg hr, hp]
            | str s => simp [hE, hc, if_neg hr, hp]
            | arr xs => simp [hE, hc, if_neg hr, hp]

/-- Witness for C6 (amended) at concrete inputs: a transport failure
yields the null triple, while an empty JSON object yields the fixed
irrelevance message (no stage failure), in both cases with one
code-generation call. -/
theorem c6_codegen_failure_characterisation_witness :
    process_question envDown "how much did I spend" [txA1] liEN "A" g0 =
      ⟨.ret none none none, g0, [.codegen]⟩ ∧
    process_question envEmptyObj "how much did I spend" [txA1] liEN "A" g0 =
      ⟨.ret (some "Sorry, I can only answer questions about your financial transactions.")
        none none, g0, [.codegen]⟩ ∧
    (process_question envEmptyObj "how much did I spend" [txA1] liEN "A"
      g0).calls.count .codegen ≤ 1 :=
  ⟨(c6_codegen_failure_characterisation envDown "how much did I spend" [txA1] liEN "A" g0
      (by decide)).1 rfl,
   (c6_codegen_failure_characterisation envEmptyObj "how much did I spend" [txA1] liEN "A"
      g0 (by decide)).2.2.1 "EMPTYOBJ" [] rfl (by decide) rfl rfl,
   (c6_codegen_failure_characterisation envEmptyObj "how much did I spend" [txA1] liEN "A"
      g0 (by decide)).2.2.2⟩

/-! Theorems: C9, lifetime of the generated routines. -/

/-- Fields of a generated reply whose context source is the empty string:
`exec("")` succeeds and defines nothing. -/
def cdEmptySrcFields : List (String × Json) :=
  [("is_relevant", .bool true), ("context_code", .str "")]

/-- Environment whose generated context source defines nothing, so the
entry point is resolved against whatever an earlier turn left in the
module globals. -/
def envStale : Env :=
  { envDown with
    chat := fun _ _ fmt => if fmt = "json" then some "GENCODE" else some "the answer"
    parse := fun s => if s = "GENCODE" then some (.obj cdEmptySrcFields) else none
    execPy := fun _ g => (g, none) }

/-- Module globals left over by an earlier turn whose generated code
defined `get_context`. -/
def gPrev : Globals := ⟨some fCtx30, none⟩

/-- Counterexample to C9 as stated: generated routines persist in the
module globals (`exec(code, globals())`), so a later `process_question`
call whose own generated source defines no `get_context` silently reuses
the routine an earlier call defined — two runs that differ only in the
leftovers of an earlier call's generated code produce different results,
and the stale routine's context is observable. -/
theorem c9_stale_globals_counterexample :
    (process_question envStale "how much did I spend" [txA1] liEN "A" gPrev).res.outputOf =
      some "the answer" ∧
    (process_question envStale "how much did I spend" [txA1] liEN "A" gPrev).res.ctxOf =
      some (.obj [("total", .num 30)]) ∧
    (process_question envStale "how much did I spend" [txA1] liEN "A" g0).res.outputOf =
      none :=
  ⟨rfl, rfl, rfl⟩

/-- Freshness property of the exec oracle: the outcome of running a
generated source — whether it raises, and which `get_context` and `plot`
entries are available afterwards — does not depend on the globals it
starts from, as holds when every generated source (re)defines the entry
points it is about to use. -/
def ExecFresh (env : Env) : Prop :=
  ∀ src g1 g2, (env.execPy src g1).2 = (env.execPy src g2).2 ∧
    (env.execPy src g1).1.get_context = (env.execPy src g2).1.get_context ∧
    (env.execPy src g1).1.plot = (env.execPy src g2).1.plot

/-- Helper: under a fresh exec oracle, the context-execution step computes
the same context whatever globals it starts from. -/
theorem execContext_fresh (env : Env) (src : String) (ts : List Transaction)
    (g1 g2 : Globals) (H : ExecFresh env) :
    (execContext env src ts g1).2 = (execContext env src ts g2).2 := by
  obtain ⟨h2, hgc, hpl⟩ := H src g1 g2
  simp only [execContext]
  rw [h2, hgc]
  cases he : (env.execPy src g2).2 with
  | some e => rfl
  | none =>
    cases hg : (env.execPy src g2).1.get_context with
    | none => rfl
    | some f => rfl

/-- Helper: under a fresh exec oracle, the diagram-execution step computes
the same figure whatever globals it starts from. -/
theorem execDiagram_fresh (env : Env) (src : String) (context : Json)
    (g1 g2 : Globals) (H : ExecFresh env) :
    (execDiagram env src context g1).2 = (execDiagram env src context g2).2 := by
  obtain ⟨h2, hgc, hpl⟩ := H src g1 g2
  simp only [execDiagram]
  rw [h2, hpl]
  cases he : (env.execPy src g2).2 with
  | some e => rfl
  | none =>
    cases hg : (env.execPy src g2).1.plot with
    | none => rfl
    | some pf =>
      cases hx : pf context with
      | error e => simp [hx]
      | ok fig => simp [hx]

/-- Helper: under a fresh exec oracle, the context block computes the same
context whatever globals it starts from. -/
theorem tryContext_fresh (env : Env) (cd : Json) (ts : List Transaction)
    (g1 g2 : Globals) (H : ExecFresh env) :
    (tryContext env cd ts g1).2 = (tryContext env cd ts g2).2 := by
  simp only [tryContext]
  rcases cd.getKey "context_code" with _ | v
  · rfl
  · rcases v with _ | b | q | src | xs | fs
    · rfl
    · rfl
    · rfl
    · show (execContext env src ts g1).2 = (execContext env src ts g2).2
      exact execContext_fresh env src ts g1 g2 H
    · rfl
    · rfl

/-- Helper: under a fresh exec oracle, the diagram block computes the same
figure whatever globals it starts from. -/
theorem tryDiagram_fresh (env : Env) (cd : Json) (context : Json)
    (g1 g2 : Globals) (H : ExecFresh env) :
    (tryDiagram env cd context g1).2 = (tryDiagram env cd context g2).2 := by
  simp only [tryDiagram]
  cases hcond : ((cd.getD "needs_diagram" (.bool false)).truthy &&
      (cd.getD "diagram_code" .null).truthy) with
  | false => simp [hcond]
  | true =>
    simp only [hcond, if_true]
    rcases cd.getKey "diagram_code" with _ | v
    · rfl
    · rcases v with _ | b | q | src | xs | fs
      · rfl
      · rfl
      · rfl
      · show (execDiagram env src context g1).2 = (execDiagram env src context g2).2
        exact execDiagram_fresh env src context g1 g2 H
      · rfl
      · rfl

/-- C9 (amended): generated routines live in the module globals, so a
later call is independent of an earlier call's generated code only under
the freshness condition that every executed source makes the same entry
points available whatever globals it starts from (in particular when each
generated source defines its own entry point, as the prompt mandates).
Under that condition the returned value and the model calls of
`process_question` do not depend on the incoming globals. -/
theorem c9_routine_freshness (env : Env) (question : String)
    (ts : List Transaction) (li : LocalInfo) (uid : String) (g1 g2 : Globals)
    (H : ExecFresh env) :
    (process_question env question ts li uid g1).res =
      (process_question env question ts li uid g2).res ∧
    (process_question env question ts li uid g1).calls =
      (process_question env question ts li uid g2).calls := by
  unfold process_question run_prompt
  cases hE : (userFilter uid ts).isEmpty with
  | true => simp [hE]
  | false =>
    cases hc : env.chat (codegenPrompt question uid ts li) codegenSystem "json" with
    | none => simp [hE, hc]
    | some r =>
      rcases eq_or_ne r "" with hr | hr
      · simp [hE, hc, hr]
      · cases hp : env.parse r with
        | none => simp [hE, hc, if_neg hr, hp]
        | some j =>
          cases j with
          | obj fields =>
            cases hrel : ((Json.obj fields).getD "is_relevant" (.bool false)).truthy with
            | false => simp [hE, hc, if_neg hr, hp, hrel]
            | true =>
              have h2 := tryContext_fresh env (.obj fields) ts g1 g2 H
              cases htc1 : (tryContext env (.obj fields) ts g1).2 with
              | error e =>
                have htc2 : (tryContext env (.obj fields) ts g2).2 = .error e := by
                  rw [← h2, htc1]
                simp [hE, hc, if_neg hr, hp, hrel, htc1, htc2]
              | ok context =>
                have htc2 : (tryContext env (.obj fields) ts g2).2 = .ok context := by
                  rw [← h2, htc1]
                have h3 := tryDiagram_fresh env (.obj fields) context
                  (tryContext env (.obj fields) ts g1).1
                  (tryContext env (.obj fields) ts g2).1 H
                simp [hE, hc, if_neg hr, hp, hrel, htc1, htc2, h3]
          | null => simp [hE, hc, if_neg hr, hp]
          | bool b => simp [hE, hc, if_neg hr, hp]
          | num q => simp [hE, hc, if_neg hr, hp]
          | str s => simp [hE, hc, if_neg hr, hp]
          | arr xs => simp [hE, hc, if_neg hr, hp]

/-- Environment whose exec oracle installs both entry points afresh on
every run, ignoring the incoming globals. -/
def envFresh : Env :=
  { envDown with
    chat := fun _ _ fmt => if fmt = "json" then some "GENCODE" else some "the answer"
    parse := fun s => if s = "GENCODE" then some (.obj cdRelFields) else none
    execPy := fun _ _ => (⟨some fCtx30, some fPlotOk⟩, none) }

/-- Witness for C9 (amended) at concrete inputs: with a fresh exec oracle,
a run from globals polluted by an earlier turn and a run from empty
globals agree on result and calls. -/
theorem c9_routine_freshness_witness :
    (process_question envFresh "how much did I spend" [txA1] liEN "A" gPrev).res =
      (process_question envFresh "how much did I spend" [txA1] liEN "A" g0).res ∧
    (process_question envFresh "how much did I spend" [txA1] liEN "A" gPrev).calls =
      (process_question envFresh "how much did I spend" [txA1] liEN "A" g0).calls :=
  c9_routine_freshness envFresh "how much did I spend" [txA1] liEN "A" gPrev g0
    (fun _ _ _ => ⟨rfl, rfl, rfl⟩)

/-! Theorems: C10, routing-classifier failures default to the in-memory
path. -/

/-- Helper: the routing step always makes exactly its one model call. -/
theorem should_use_kg_calls (env : Env) (question : String) :
    (should_use_kg env question).2 = [.route] := by
  cases hc : env.routeChat (decisionPrompt question) with
  | none => simp [should_use_kg, hc]
  | some c =>
    cases hp : env.parse c with
    | none => simp [should_use_kg, hc, hp]
    | some j => simp [should_use_kg, hc, hp]

/-- C10: when the routing model call fails (transport error), when its
reply is not parseable JSON, and when the parsed reply lacks the `use_kg`
key, `should_use_kg` returns `False` after its single model call; and
whenever the routing flag is `False`, the turn is handled by the in-memory
`process_question` (the turn continues rather than failing). -/
theorem c10_routing_failure_defaults_in_memory (env : Env) (question : String)
    (ts : List Transaction) (li : LocalInfo) (uid : String) (g : Globals) :
    (env.routeChat (decisionPrompt question) = none →
      should_use_kg env question = (false, [.route])) ∧
    (∀ c, env.routeChat (decisionPrompt question) = some c →
      env.parse c = none →
      should_use_kg env question = (false, [.route])) ∧
    (∀ c fields, env.routeChat (decisionPrompt question) = some c →
      env.parse c = some (.obj fields) →
      fields.lookup "use_kg" = none →
      should_use_kg env question = (false, [.route])) ∧
    ((should_use_kg env question).1 = false →
      kg_turn env question ts li uid g =
        ⟨(process_question env question ts li uid g).res,
         (process_question env question ts li uid g).g,
         .route :: (process_question env question ts li uid g).calls⟩) := by
  refine ⟨?_, ?_, ?_, ?_⟩
  · intro h
    unfold should_use_kg
    rw [h]
  · intro c hc hp
    unfold should_use_kg
    rw [hc]
    simp [hp]
  · intro c fields hc hp hl
    unfold should_use_kg
    rw [hc]
    simp [hp, getD_obj, hl, truthy_bool]
  · intro h
    unfold kg_turn
    simp [h, should_use_kg_calls]

/-- Environment whose routing model call fails. -/
def envRouteDown : Env := envDown

/-- Witness for C10 at concrete inputs: with the routing call down, the
flag is `False` and the turn is the in-memory turn. -/
theorem c10_routing_failure_defaults_in_memory_witness :
    should_use_kg envRouteDown "compare my spending" = (false, [.route]) ∧
    kg_turn envRouteDown "compare my spending" [txA1] liEN "A" g0 =
      ⟨(process_question envRouteDown "compare my spending" [txA1] liEN "A" g0).res,
       (process_question envRouteDown "compare my spending" [txA1] liEN "A" g0).g,
       .route :: (process_question envRouteDown "compare my spending" [txA1] liEN "A"
         g0).calls⟩ :=
  ⟨(c10_routing_failure_defaults_in_memory envRouteDown "compare my spending" [txA1] liEN
      "A" g0).1 rfl,
   (c10_routing_failure_defaults_in_memory envRouteDown "compare my spending" [txA1] liEN
      "A" g0).2.2.2 rfl⟩

/-! Theorems: C7, graph-path failures return a sentinel and fall back. -/

/-- Helper: the Cypher-generation step always makes exactly its one model
call. -/
theorem query_kg_calls (env : Env) (question user_id currency : String) :
    (query_kg env question user_id currency).2 = [.cypherGen] := by
  cases hc : env.cypherChat (cypherPrompt question user_id currency) with
  | none => simp [query_kg, hc]
  | some c =>
    cases hp : env.parse c with
    | none => simp [query_kg, hc, hp]
    | some j =>
      cases htr : (j.getD "cypher" Json.null).truthy with
      | false => simp [query_kg, hc, hp, htr]
      | true =>
        simp only [query_kg, hc, hp, htr, Bool.not_true, Bool.false_eq_true, if_false]
        rcases hcy : j.getD "cypher" Json.null with _ | b | q | s | xs | fs
        · rfl
        · rfl
        · rfl
        · cases hrun : env.runCypher s
            (j.getD "parameters" (.obj [("user_id", .str user_id)])) with
          | error e => simp [hrun]
          | ok rows => simp [hrun]
        · rfl
        · rfl

/-- C7: every failure of graph query generation or execution — transport
error of the Cypher model call, a reply that is not parseable JSON, a
missing or falsy `cypher` value, or a store-side error when running the
query — makes `query_kg` return the `None` sentinel (it never raises), and
when the routed graph path gets that `None`, the caller falls back to the
in-memory `process_question` for the turn. -/
theorem c7_query_kg_failure_fallback (env : Env) (question user_id currency : String)
    (ts : List Transaction) (li : LocalInfo) (g : Globals) :
    (env.cypherChat (cypherPrompt question user_id currency) = none →
      query_kg env question user_id currency = (none, [.cypherGen])) ∧
    (∀ c, env.cypherChat (cypherPrompt question user_id currency) = some c →
      env.parse c = none →
      query_kg env question user_id currency = (none, [.cypherGen])) ∧
    (∀ c j, env.cypherChat (cypherPrompt question user_id currency) = some c →
      env.parse c = some j →
      (j.getD "cypher" .null).truthy = false →
      query_kg env question user_id currency = (none, [.cypherGen])) ∧
    (∀ c j s e, env.cypherChat (cypherPrompt question user_id currency) = some c →
      env.parse c = some j →
      j.getD "cypher" .null = .str s →
      s ≠ "" →
      env.runCypher s (j.getD "parameters" (.obj [("user_id", .str user_id)])) =
        .error e →
      query_kg env question user_id currency = (none, [.cypherGen])) ∧
    ((should_use_kg env question).1 = true →
      (query_kg env question user_id li.currency).1 = none →
      kg_turn env question ts li user_id g =
        ⟨(process_question env question ts li user_id g).res,
         (process_question env question ts li user_id g).g,
         .route :: .cypherGen ::
           (process_question env question ts li user_id g).calls⟩) := by
  refine ⟨?_, ?_, ?_, ?_, ?_⟩
  · intro h
    unfold query_kg
    rw [h]
  · intro c hc hp
    unfold query_kg
    rw [hc]
    simp [hp]
  · intro c j hc hp htr
    unfold query_kg
    rw [hc]
    simp [hp, htr]
  · intro c j s e hc hp hcy hs hrun
    unfold query_kg
    rw [hc]
    simp [hp, hcy, truthy_str, bne_iff_ne, hs, hrun]
  · intro hroute hq
    unfold kg_turn
    simp [hroute, hq, should_use_kg_calls, query_kg_calls]

/-- Environment that routes to the graph path but whose Cypher model call
fails. -/
def envKGDown : Env :=
  { envDown with
    routeChat := fun _ => some "ROUTEYES"
    parse := fun s => if s = "ROUTEYES" then some (.obj [("use_kg", .bool true)]) else none }

/-- Witness for C7 at concrete inputs: the Cypher call fails, `query_kg`
returns the sentinel, and the routed turn is the in-memory turn. -/
theorem c7_query_kg_failure_fallback_witness :
    query_kg envKGDown "top 5 merchants" "A" "USD" = (none, [.cypherGen]) ∧
    kg_turn envKGDown "top 5 merchants" [txA1] liEN "A" g0 =
      ⟨(process_question envKGDown "top 5 merchants" [txA1] liEN "A" g0).res,
       (process_question envKGDown "top 5 merchants" [txA1] liEN "A" g0).g,
       .route :: .cypherGen ::
         (process_question envKGDown "top 5 merchants" [txA1] liEN "A" g0).calls⟩ :=
  ⟨(c7_query_kg_failure_fallback envKGDown "top 5 merchants" "A" "USD" [txA1] liEN g0).1
      rfl,
   (c7_query_kg_failure_fallback envKGDown "top 5 merchants" "A" "USD" [txA1] liEN
      g0).2.2.2.2 rfl rfl⟩

/-! Theorems: C8, empty graph results format without a model call. -/

/-- C8: a `None` graph result and a result whose `results` value is falsy
(absent, null, or an empty row list) both format to the fixed localized
no-data string with no model call; a formatting model call happens only
when the `results` value is truthy (a non-empty row list). -/
theorem c8_empty_rows_no_model_call (env : Env) (question language currency : String) :
    (format_kg_results env none question language currency = (noDataMsg language, [])) ∧
    (∀ kd, (kd.getD "results" .null).truthy = false →
      format_kg_results env (some kd) question language currency =
        (noDataMsg language, [])) ∧
    (∀ kd, (format_kg_results env (some kd) question language currency).2 ≠ [] →
      (kd.getD "results" .null).truthy = true) := by
  refine ⟨rfl, ?_, ?_⟩
  · intro kd h
    unfold format_kg_results
    simp [h]
  · intro kd h
    cases htr : (kd.getD "results" .null).truthy with
    | true => rfl
    | false =>
      exact absurd (by unfold format_kg_results; simp [htr]) h

/-- Witness for C8 at concrete inputs: a zero-row Russian-locale result
formats to the fixed Russian no-data string with no model call. -/
theorem c8_empty_rows_no_model_call_witness :
    format_kg_results envDown (some (.obj [("results", .arr [])])) "сколько я потратил"
      "RUS" "GEL" = ("Данные не найдены.", []) :=
  (c8_empty_rows_no_model_call envDown "сколько я потратил" "RUS" "GEL").2.1
    (.obj [("results", .arr [])]) rfl

end FinBot
